import Mathlib

/-!
Verification of the snapstate manager (src/overlord/snapstate/snapmgr.go).

The manager registers one handler per operation kind with a task runner.
Each handler locks the state store, deserializes the task payload stored
under the key "state", unlocks, and performs exactly one backend call.
We embed each handler as a function from the store's deserialization
outcome (`Except String payload`, the result of `t.Get("state", &x)`) and
a backend response function to the trace of store/backend events it
performs, paired with the error it returns (`none` meaning a nil error).
-/

/-- The task payload for `install-snap` and `update-snap`
(struct `installState`: name, channel, flags). Flags are an opaque
bitset, modelled as a natural number the manager never inspects. -/
structure installState where
  name : String
  channel : String
  flags : Nat
deriving Repr, DecidableEq

/-- The task payload for `remove-snap` (struct `removeState`). -/
structure removeState where
  name : String
  flags : Nat
deriving Repr, DecidableEq

/-- The task payload for `purge-snap` (struct `purgeState`). -/
structure purgeState where
  name : String
  flags : Nat
deriving Repr, DecidableEq

/-- The task payload for `rollback-snap` (struct `rollbackState`). -/
structure rollbackState where
  name : String
  version : String
deriving Repr, DecidableEq

/-- The task payload for `set-active-snap` (struct `setActiveState`). -/
structure setActiveState where
  name : String
  active : Bool
deriving Repr, DecidableEq

/-- A call into the package backend, one constructor per backend method,
carrying exactly the arguments the manager passes (the progress sink is
always a fresh `NullProgress`, so it is not recorded). -/
inductive BackendCall where
  | install (name channel : String) (flags : Nat)
  | update (name channel : String) (flags : Nat)
  | remove (name : String) (flags : Nat)
  | purge (name : String) (flags : Nat)
  | rollback (name version : String)
  | setActive (name : String) (active : Bool)
deriving Repr, DecidableEq

/-- An observable action of a handler: state-lock operations, payload
reads and writes on the store, and backend calls. -/
inductive Event where
  | lock
  | unlock
  | get (key : String)
  | set (key : String)
  | backend (c : BackendCall)
deriving Repr, DecidableEq

/-- Modelled from the spec: `snappy.SplitDeveloper` lives in the
`snappy` package, which is outside this repository snapshot. Per the
spec, a qualified name has the form `base-name[.developer]`; splitting
returns the base name and the developer suffix, and a bare name (no
suffix) is returned unchanged with an empty developer and no error. -/
def SplitDeveloper (s : String) : String × String :=
  let base := s.data.takeWhile (fun c => c ≠ '.')
  let dev := (s.data.dropWhile (fun c => c ≠ '.')).drop 1
  (⟨base⟩, ⟨dev⟩)

/-- Handler for `install-snap` (method `doInstallSnap`): lock, read the
payload under "state" (on failure return the error at once — the source
returns before the `Unlock()` call), unlock, call `backend.Install`
with name, channel and flags verbatim, return the backend's error. -/
def doInstallSnap (g : Except String installState)
    (b : BackendCall → Option String) : List Event × Option String :=
  match g with
  | .error e => ([.lock, .get "state"], some e)
  | .ok inst =>
    let c := BackendCall.install inst.name inst.channel inst.flags
    ([.lock, .get "state", .unlock, .backend c], b c)

/-- Handler for `update-snap` (method `doUpdateSnap`): same shape as
install, calling `backend.Update` with name, channel, flags verbatim. -/
def doUpdateSnap (g : Except String installState)
    (b : BackendCall → Option String) : List Event × Option String :=
  match g with
  | .error e => ([.lock, .get "state"], some e)
  | .ok inst =>
    let c := BackendCall.update inst.name inst.channel inst.flags
    ([.lock, .get "state", .unlock, .backend c], b c)

/-- Handler for `remove-snap` (method `doRemoveSnap`): after the read,
the developer suffix is split off via `snappy.SplitDeveloper` and only
the base name is passed to `backend.Remove` along with the flags. -/
def doRemoveSnap (g : Except String removeState)
    (b : BackendCall → Option String) : List Event × Option String :=
  match g with
  | .error e => ([.lock, .get "state"], some e)
  | .ok rm =>
    let c := BackendCall.remove (SplitDeveloper rm.name).1 rm.flags
    ([.lock, .get "state", .unlock, .backend c], b c)

/-- Handler for `purge-snap` (method `doPurgeSnap`): base name after
splitting, plus flags, passed to `backend.Purge`. -/
def doPurgeSnap (g : Except String purgeState)
    (b : BackendCall → Option String) : List Event × Option String :=
  match g with
  | .error e => ([.lock, .get "state"], some e)
  | .ok purge =>
    let c := BackendCall.purge (SplitDeveloper purge.name).1 purge.flags
    ([.lock, .get "state", .unlock, .backend c], b c)

/-- Handler for `rollback-snap` (method `doRollbackSnap`): base name
after splitting, plus the version string, passed to `backend.Rollback`
(the returned snap object is discarded, only the error is kept). -/
def doRollbackSnap (g : Except String rollbackState)
    (b : BackendCall → Option String) : List Event × Option String :=
  match g with
  | .error e => ([.lock, .get "state"], some e)
  | .ok rb =>
    let c := BackendCall.rollback (SplitDeveloper rb.name).1 rb.version
    ([.lock, .get "state", .unlock, .backend c], b c)

/-- Handler for `set-active-snap` (method `doSetActiveSnap`): base name
after splitting, plus the active flag, passed to `backend.SetActive`. -/
def doSetActiveSnap (g : Except String setActiveState)
    (b : BackendCall → Option String) : List Event × Option String :=
  match g with
  | .error e => ([.lock, .get "state"], some e)
  | .ok sa =>
    let c := BackendCall.setActive (SplitDeveloper sa.name).1 sa.active
    ([.lock, .get "state", .unlock, .backend c], b c)

/-- The diagnostic handler registered under `fake-install-snap`: ignores
its task and tomb, performs no store or backend action, returns nil. -/
def fakeInstallSnap {Task Tomb : Type} (_ : Task) (_ : Tomb) :
    List Event × Option String :=
  ([], none)

/-- The diagnostic handler registered under `fake-install-snap-error`:
ignores its task and tomb, performs no store or backend action, and
returns the fixed error `fake-install-snap-error errored`. -/
def fakeInstallSnapError {Task Tomb : Type} (_ : Task) (_ : Tomb) :
    List Event × Option String :=
  ([], some "fake-install-snap-error errored")

/-- The snap manager record: for this development we track the handler
registrations the constructor performs on its task runner, in order. -/
structure SnapManager where
  registrations : List String
deriving Repr, DecidableEq

/-- Constructor `Manager(s *state.State)`: creates a runner and a default
backend, registers the six production handlers and the two diagnostic
handlers by kind name, and returns the manager with a nil error. -/
def Manager : SnapManager × Option String :=
  ({ registrations :=
      ["install-snap", "update-snap", "remove-snap", "purge-snap",
       "rollback-snap", "set-active-snap",
       "fake-install-snap", "fake-install-snap-error"] },
   none)

/-- A lifecycle call the manager makes on its task runner. -/
inductive RunnerCall where
  | ensure
  | wait
  | stop
deriving Repr, DecidableEq

/-- `SnapManager.Ensure`: calls `runner.Ensure()` and returns nil. -/
def SnapManager.Ensure (_ : SnapManager) : List RunnerCall × Option String :=
  ([.ensure], none)

/-- `SnapManager.Wait`: calls `runner.Wait()`. -/
def SnapManager.Wait (_ : SnapManager) : List RunnerCall :=
  [.wait]

/-- `SnapManager.Stop`: calls `runner.Stop()`. -/
def SnapManager.Stop (_ : SnapManager) : List RunnerCall :=
  [.stop]

/-- The backend calls a trace contains, in order. -/
def backendCalls (tr : List Event) : List BackendCall :=
  tr.filterMap (fun e => match e with | .backend c => some c | _ => none)

/-- The keys of the store reads a trace contains, in order. -/
def getKeys (tr : List Event) : List String :=
  tr.filterMap (fun e => match e with | .get k => some k | _ => none)

/-- The keys of the store writes a trace contains, in order. -/
def setKeys (tr : List Event) : List String :=
  tr.filterMap (fun e => match e with | .set k => some k | _ => none)

/-- Number of lock acquisitions in a trace. -/
def numLocks (tr : List Event) : Nat :=
  (tr.filter (fun e => match e with | .lock => true | _ => false)).length

/-- Number of lock releases in a trace. -/
def numUnlocks (tr : List Event) : Nat :=
  (tr.filter (fun e => match e with | .unlock => true | _ => false)).length

/-- C1: for every successfully decoded payload, each handler calls the
backend method of its kind with the payload fields passed verbatim;
Remove, Purge, Rollback and SetActive pass only the base name obtained
by splitting the developer suffix, while Install and Update pass the
qualified name unsplit. -/
theorem c1_backend_fields_verbatim :
    ∀ (i : installState) (r : removeState) (p : purgeState)
      (rb : rollbackState) (sa : setActiveState)
      (b : BackendCall → Option String),
    backendCalls (doInstallSnap (.ok i) b).1
      = [BackendCall.install i.name i.channel i.flags] ∧
    backendCalls (doUpdateSnap (.ok i) b).1
      = [BackendCall.update i.name i.channel i.flags] ∧
    backendCalls (doRemoveSnap (.ok r) b).1
      = [BackendCall.remove (SplitDeveloper r.name).1 r.flags] ∧
    backendCalls (doPurgeSnap (.ok p) b).1
      = [BackendCall.purge (SplitDeveloper p.name).1 p.flags] ∧
    backendCalls (doRollbackSnap (.ok rb) b).1
      = [BackendCall.rollback (SplitDeveloper rb.name).1 rb.version] ∧
    backendCalls (doSetActiveSnap (.ok sa) b).1
      = [BackendCall.setActive (SplitDeveloper sa.name).1 sa.active] := by
  intro i r p rb sa b
  exact ⟨rfl, rfl, rfl, rfl, rfl, rfl⟩

/-- C2 (code bug evidence): when the payload fails to decode, every
handler returns the decoding error, but the trace it has performed holds
one lock acquisition and no release: the source returns before the
`Unlock()` call, so the state lock is still held when the handler
returns, contradicting the contract that the lock is released first. -/
theorem c2_decode_error_leaves_lock_held :
    ((doInstallSnap (.error "boom") (fun _ => none)).2 = some "boom" ∧
     numLocks (doInstallSnap (.error "boom") (fun _ => none)).1 = 1 ∧
     numUnlocks (doInstallSnap (.error "boom") (fun _ => none)).1 = 0) ∧
    ((doUpdateSnap (.error "boom") (fun _ => none)).2 = some "boom" ∧
     numLocks (doUpdateSnap (.error "boom") (fun _ => none)).1 = 1 ∧
     numUnlocks (doUpdateSnap (.error "boom") (fun _ => none)).1 = 0) ∧
    ((doRemoveSnap (.error "boom") (fun _ => none)).2 = some "boom" ∧
     numLocks (doRemoveSnap (.error "boom") (fun _ => none)).1 = 1 ∧
     numUnlocks (doRemoveSnap (.error "boom") (fun _ => none)).1 = 0) ∧
    ((doPurgeSnap (.error "boom") (fun _ => none)).2 = some "boom" ∧
     numLocks (doPurgeSnap (.error "boom") (fun _ => none)).1 = 1 ∧
     numUnlocks (doPurgeSnap (.error "boom") (fun _ => none)).1 = 0) ∧
    ((doRollbackSnap (.error "boom") (fun _ => none)).2 = some "boom" ∧
     numLocks (doRollbackSnap (.error "boom") (fun _ => none)).1 = 1 ∧
     numUnlocks (doRollbackSnap (.error "boom") (fun _ => none)).1 = 0) ∧
    ((doSetActiveSnap (.error "boom") (fun _ => none)).2 = some "boom" ∧
     numLocks (doSetActiveSnap (.error "boom") (fun _ => none)).1 = 1 ∧
     numUnlocks (doSetActiveSnap (.error "boom") (fun _ => none)).1 = 0) := by
  exact ⟨⟨rfl, rfl, rfl⟩, ⟨rfl, rfl, rfl⟩, ⟨rfl, rfl, rfl⟩,
         ⟨rfl, rfl, rfl⟩, ⟨rfl, rfl, rfl⟩, ⟨rfl, rfl, rfl⟩⟩

/-- C3: on the success path every handler performs exactly the sequence
Lock, Get, Unlock, then one backend call: the state lock is released
before the backend is invoked, so it is never held during the backend
call. -/
theorem c3_lock_only_around_get :
    ∀ (i : installState) (r : removeState) (p : purgeState)
      (rb : rollbackState) (sa : setActiveState)
      (b : BackendCall → Option String),
    (doInstallSnap (.ok i) b).1
      = [.lock, .get "state", .unlock,
         .backend (.install i.name i.channel i.flags)] ∧
    (doUpdateSnap (.ok i) b).1
      = [.lock, .get "state", .unlock,
         .backend (.update i.name i.channel i.flags)] ∧
    (doRemoveSnap (.ok r) b).1
      = [.lock, .get "state", .unlock,
         .backend (.remove (SplitDeveloper r.name).1 r.flags)] ∧
    (doPurgeSnap (.ok p) b).1
      = [.lock, .get "state", .unlock,
         .backend (.purge (SplitDeveloper p.name).1 p.flags)] ∧
    (doRollbackSnap (.ok rb) b).1
      = [.lock, .get "state", .unlock,
         .backend (.rollback (SplitDeveloper rb.name).1 rb.version)] ∧
    (doSetActiveSnap (.ok sa) b).1
      = [.lock, .get "state", .unlock,
         .backend (.setActive (SplitDeveloper sa.name).1 sa.active)] := by
  intro i r p rb sa b
  exact ⟨rfl, rfl, rfl, rfl, rfl, rfl⟩

/-- C4: when the store read fails, every handler returns exactly the
error the read produced and performs no backend call at all. -/
theorem c4_get_error_propagates_no_backend :
    ∀ (e : String) (b : BackendCall → Option String),
    ((doInstallSnap (.error e) b).2 = some e ∧
     backendCalls (doInstallSnap (.error e) b).1 = []) ∧
    ((doUpdateSnap (.error e) b).2 = some e ∧
     backendCalls (doUpdateSnap (.error e) b).1 = []) ∧
    ((doRemoveSnap (.error e) b).2 = some e ∧
     backendCalls (doRemoveSnap (.error e) b).1 = []) ∧
    ((doPurgeSnap (.error e) b).2 = some e ∧
     backendCalls (doPurgeSnap (.error e) b).1 = []) ∧
    ((doRollbackSnap (.error e) b).2 = some e ∧
     backendCalls (doRollbackSnap (.error e) b).1 = []) ∧
    ((doSetActiveSnap (.error e) b).2 = some e ∧
     backendCalls (doSetActiveSnap (.error e) b).1 = []) := by
  intro e b
  exact ⟨⟨rfl, rfl⟩, ⟨rfl, rfl⟩, ⟨rfl, rfl⟩, ⟨rfl, rfl⟩, ⟨rfl, rfl⟩,
         ⟨rfl, rfl⟩⟩

/-- C5: when the payload decodes successfully, every handler performs
exactly one backend call and returns exactly that call's outcome: a
backend error is returned verbatim and a nil backend error yields a nil
handler result. -/
theorem c5_backend_outcome_one_to_one :
    ∀ (i : installState) (r : removeState) (p : purgeState)
      (rb : rollbackState) (sa : setActiveState)
      (b : BackendCall → Option String),
    ((doInstallSnap (.ok i) b).2
       = b (.install i.name i.channel i.flags) ∧
     (backendCalls (doInstallSnap (.ok i) b).1).length = 1) ∧
    ((doUpdateSnap (.ok i) b).2
       = b (.update i.name i.channel i.flags) ∧
     (backendCalls (doUpdateSnap (.ok i) b).1).length = 1) ∧
    ((doRemoveSnap (.ok r) b).2
       = b (.remove (SplitDeveloper r.name).1 r.flags) ∧
     (backendCalls (doRemoveSnap (.ok r) b).1).length = 1) ∧
    ((doPurgeSnap (.ok p) b).2
       = b (.purge (SplitDeveloper p.name).1 p.flags) ∧
     (backendCalls (doPurgeSnap (.ok p) b).1).length = 1) ∧
    ((doRollbackSnap (.ok rb) b).2
       = b (.rollback (SplitDeveloper rb.name).1 rb.version) ∧
     (backendCalls (doRollbackSnap (.ok rb) b).1).length = 1) ∧
    ((doSetActiveSnap (.ok sa) b).2
       = b (.setActive (SplitDeveloper sa.name).1 sa.active) ∧
     (backendCalls (doSetActiveSnap (.ok sa) b).1).length = 1) := by
  intro i r p rb sa b
  exact ⟨⟨rfl, rfl⟩, ⟨rfl, rfl⟩, ⟨rfl, rfl⟩, ⟨rfl, rfl⟩, ⟨rfl, rfl⟩,
         ⟨rfl, rfl⟩⟩

/-- C6: splitting a developer-qualified name that contains no developer
suffix (no dot) yields the same name unchanged, with an empty developer
part; the operation cannot produce an error. -/
theorem c6_split_bare_name (s : String)
    (h : ∀ c ∈ s.data, c ≠ '.') :
    (SplitDeveloper s).1 = s ∧ (SplitDeveloper s).2 = "" := by
  have htake : s.data.takeWhile (fun c => c ≠ '.') = s.data := by
    rw [List.takeWhile_eq_self_iff]
    intro a ha
    simpa using h a ha
  have hdrop : s.data.dropWhile (fun c => c ≠ '.') = [] := by
    rw [List.dropWhile_eq_nil_iff]
    intro a ha
    simpa using h a ha
  constructor
  · show (⟨s.data.takeWhile (fun c => c ≠ '.')⟩ : String) = s
    rw [htake]
  · show (⟨(s.data.dropWhile (fun c => c ≠ '.')).drop 1⟩ : String) = ""
    rw [hdrop]
    rfl

/-- Witness for C6: the bare name "foo" has no dot; splitting it yields
"foo" itself with an empty developer part. -/
theorem c6_split_bare_name_witness :
    (∀ c ∈ "foo".data, c ≠ '.') ∧
    (SplitDeveloper "foo").1 = "foo" ∧ (SplitDeveloper "foo").2 = "" := by
  refine ⟨by decide, ?_⟩
  exact c6_split_bare_name "foo" (by decide)

/-- C7: the manager's lifecycle operations forward exactly to the
runner: Ensure performs one runner Ensure call and returns nil, Wait
performs one runner Wait call, Stop performs one runner Stop call, and
none performs anything else. -/
theorem c7_lifecycle_forwarding :
    ∀ (m : SnapManager),
    m.Ensure = ([RunnerCall.ensure], none) ∧
    m.Wait = [RunnerCall.wait] ∧
    m.Stop = [RunnerCall.stop] := by
  intro m
  exact ⟨rfl, rfl, rfl⟩

/-- C8: construction of the manager succeeds (a manager is produced and
the returned error is nil) and registers exactly one handler for each of
the six production kind names, with the two diagnostic kinds as the only
other registrations (eight in total). -/
theorem c8_manager_construction :
    Manager.2 = none ∧
    Manager.1.registrations
      = ["install-snap", "update-snap", "remove-snap", "purge-snap",
         "rollback-snap", "set-active-snap",
         "fake-install-snap", "fake-install-snap-error"] ∧
    Manager.1.registrations.count "install-snap" = 1 ∧
    Manager.1.registrations.count "update-snap" = 1 ∧
    Manager.1.registrations.count "remove-snap" = 1 ∧
    Manager.1.registrations.count "purge-snap" = 1 ∧
    Manager.1.registrations.count "rollback-snap" = 1 ∧
    Manager.1.registrations.count "set-active-snap" = 1 ∧
    Manager.1.registrations.length = 8 := by
  exact ⟨rfl, rfl, rfl, rfl, rfl, rfl, rfl, rfl, rfl⟩

/-- C9: the two diagnostic handlers are payload-independent constants:
for any task and cancellation handle, the fake-success handler touches
neither store nor backend and returns nil, and the fake-failure handler
touches neither store nor backend and returns the fixed error
"fake-install-snap-error errored". -/
theorem c9_fake_handlers_constant :
    ∀ (Task Tomb : Type) (t : Task) (tb : Tomb),
    fakeInstallSnap t tb = ([], none) ∧
    fakeInstallSnapError t tb
      = ([], some "fake-install-snap-error errored") := by
  intro _ _ _ _
  exact ⟨rfl, rfl⟩

/-- C10: on every invocation (whether the payload decodes or not), each
of the six production handlers performs exactly one store read, under
the fixed key "state", and performs no store write. -/
theorem c10_single_read_no_write :
    ∀ (gi : Except String installState) (gr : Except String removeState)
      (gp : Except String purgeState) (grb : Except String rollbackState)
      (gsa : Except String setActiveState)
      (b : BackendCall → Option String),
    (getKeys (doInstallSnap gi b).1 = ["state"] ∧
     setKeys (doInstallSnap gi b).1 = []) ∧
    (getKeys (doUpdateSnap gi b).1 = ["state"] ∧
     setKeys (doUpdateSnap gi b).1 = []) ∧
    (getKeys (doRemoveSnap gr b).1 = ["state"] ∧
     setKeys (doRemoveSnap gr b).1 = []) ∧
    (getKeys (doPurgeSnap gp b).1 = ["state"] ∧
     setKeys (doPurgeSnap gp b).1 = []) ∧
    (getKeys (doRollbackSnap grb b).1 = ["state"] ∧
     setKeys (doRollbackSnap grb b).1 = []) ∧
    (getKeys (doSetActiveSnap gsa b).1 = ["state"] ∧
     setKeys (doSetActiveSnap gsa b).1 = []) := by
  intro gi gr gp grb gsa b
  refine ⟨?_, ?_, ?_, ?_, ?_, ?_⟩
  · cases gi <;> exact ⟨rfl, rfl⟩
  · cases gi <;> exact ⟨rfl, rfl⟩
  · cases gr <;> exact ⟨rfl, rfl⟩
  · cases gp <;> exact ⟨rfl, rfl⟩
  · cases grb <;> exact ⟨rfl, rfl⟩
  · cases gsa <;> exact ⟨rfl, rfl⟩
